import Mathlib

/-!
# Verification of the e-commerce dashboard aggregation pipeline

Shallow embedding of the filter-and-aggregate pipeline of
`ecommerce_dashboard.py`: the filter mask built from the sidebar criteria
(`filtered_df`, source lines 61-66), the KPI scalars and their percentage
deltas (lines 83-97), the grouped summaries (`region_sales`,
`category_sales`, `top_products`, lines 132-153), and the time-series
resampling (`time_data`, lines 116-119).

Numbers are modelled with `ℚ` (the source holds float64 pandas columns);
calendar dates are modelled by a `Date` structure together with its
Gregorian day number, so that pandas timestamp comparison becomes `Nat`
comparison of day numbers and monthly/daily resampling becomes bucketing
by a month index / day index.
-/

namespace Dashboard

/-- A calendar date (year, month 1-12, day 1-31), as parsed by
`pd.read_csv(..., parse_dates=["Order Date", "Ship Date"])`. -/
structure Date where
  year : ℕ
  month : ℕ
  day : ℕ
deriving DecidableEq, Repr

/-- Gregorian day number (Julian day number) of a date: a strictly
increasing integer encoding of calendar days, so timestamp comparison and
daily bucketing are comparisons of this number. -/
def dayIndex (d : Date) : ℕ :=
  let a := (14 - d.month) / 12
  let y := d.year + 4800 - a
  let m := d.month + 12 * a - 3
  d.day + (153 * m + 2) / 5 + 365 * y + y / 4 - y / 100 + y / 400 - 32045

/-- Linear index of a date's calendar month (`12*year + month-1`): the key
used by monthly resampling, one value per calendar month. -/
def monthIndex (d : Date) : ℕ := 12 * d.year + (d.month - 1)

/-- One row of the dataset, with the columns the pipeline reads:
Order ID, Order Date, Ship Date, Segment, Region, Category, Product Name,
Sales, Profit (source line 34). -/
structure Record where
  order_id : String
  order_date : Date
  ship_date : Date
  segment : String
  region : String
  category : String
  product_name : String
  sales : ℚ
  profit : ℚ
deriving DecidableEq, Repr

/-- The derived "Delivery Time" column:
`(df["Ship Date"] - df["Order Date"]).dt.days` (source line 35); may be
negative when shipping precedes ordering. -/
def deliveryTime (r : Record) : ℤ :=
  (dayIndex r.ship_date : ℤ) - (dayIndex r.order_date : ℤ)

/-- The sidebar filter state: `date_range` (a start and end date) plus the
two multiselect lists `selected_segments` and `selected_regions`
(source lines 45-53). -/
structure Criteria where
  date_start : Date
  date_end : Date
  segments : List String
  regions : List String
deriving DecidableEq, Repr

/-- The boolean mask of source lines 62-65, one row at a time:
`(Order Date >= start) & (Order Date <= end) & Segment.isin(segments)
& Region.isin(regions)`. -/
def keepRecord (c : Criteria) (r : Record) : Bool :=
  decide (dayIndex c.date_start ≤ dayIndex r.order_date) &&
  decide (dayIndex r.order_date ≤ dayIndex c.date_end) &&
  c.segments.contains r.segment &&
  c.regions.contains r.region

/-- `filtered_df = df[mask]` (source lines 61-66): boolean-mask row
selection, which keeps matching rows in their original order. -/
def filtered_df (df : List Record) (c : Criteria) : List Record :=
  df.filter (keepRecord c)

/-- A KPI snapshot: the four scalars computed at source lines 83-86
(overall) and 88-91 (filtered). `avg_delivery_time` is `none` when the
row set is empty, where pandas `mean()` yields `NaN`. -/
structure KPISnapshot where
  total_sales : ℚ
  total_profit : ℚ
  total_orders : ℕ
  avg_delivery_time : Option ℚ
deriving DecidableEq, Repr

/-- `df["Sales"].sum()` (source lines 83 and 88). -/
def totalSales (rs : List Record) : ℚ := (rs.map Record.sales).sum

/-- `df["Profit"].sum()` (source lines 84 and 89). -/
def totalProfit (rs : List Record) : ℚ := (rs.map Record.profit).sum

/-- `df["Order ID"].nunique()` (source lines 85 and 90): the number of
distinct Order ID values. -/
def totalOrders (rs : List Record) : ℕ :=
  (rs.map Record.order_id).dedup.length

/-- `df["Delivery Time"].mean()` (source lines 86 and 91): arithmetic mean
of the delivery times; `none` (pandas `NaN`) on an empty row set. -/
def avgDelivery (rs : List Record) : Option ℚ :=
  if rs = [] then none
  else some (((rs.map deliveryTime).sum : ℚ) / (rs.length : ℚ))

/-- The Aggregator's `summarize`: the four KPI scalars of source lines
83-91 over one row set. -/
def summarize (rs : List Record) : KPISnapshot :=
  { total_sales := totalSales rs
    total_profit := totalProfit rs
    total_orders := totalOrders rs
    avg_delivery_time := avgDelivery rs }

/-- Percentage delta `((current - baseline) / baseline) * 100` (source
lines 94-96). The source divides unguarded; when the baseline is `0` no
defined value is produced (NumPy float division yields an undocumented
`NaN`/`inf`, and Python integer division raises `ZeroDivisionError`), so
the zero-baseline case is modelled as `none`. -/
def pctDelta (current baseline : ℚ) : Option ℚ :=
  if baseline = 0 then none
  else some ((current - baseline) / baseline * 100)

/-- `sales_delta = ((total_sales - overall_sales) / overall_sales) * 100`
(source line 94), as a function of the two snapshots. -/
def sales_delta (baseline current : KPISnapshot) : Option ℚ :=
  pctDelta current.total_sales baseline.total_sales

/-- `profit_delta` (source line 95). -/
def profit_delta (baseline current : KPISnapshot) : Option ℚ :=
  pctDelta current.total_profit baseline.total_profit

/-- `orders_delta` (source line 96); the order counts are integers in the
source, so a zero baseline raises `ZeroDivisionError` there (modelled as
`none` by `pctDelta`). -/
def orders_delta (baseline current : KPISnapshot) : Option ℚ :=
  pctDelta (current.total_orders : ℚ) (baseline.total_orders : ℚ)

/-- `delivery_delta = avg_delivery - overall_delivery` (source line 97): a
plain difference of the two means, undefined when either mean is. -/
def delivery_delta (baseline current : KPISnapshot) : Option ℚ :=
  match baseline.avg_delivery_time, current.avg_delivery_time with
  | some b, some c => some (c - b)
  | _, _ => none

/-- The four deltas of source lines 94-97 bundled. -/
structure Deltas where
  sales : Option ℚ
  profit : Option ℚ
  orders : Option ℚ
  delivery : Option ℚ
deriving DecidableEq, Repr

/-- All four deltas from the two snapshots (source lines 94-97). -/
def computeDeltas (baseline current : KPISnapshot) : Deltas :=
  { sales := sales_delta baseline current
    profit := profit_delta baseline current
    orders := orders_delta baseline current
    delivery := delivery_delta baseline current }

/-- Ascending comparison on group keys: pandas `groupby(dim)` with its
default `sort=True` lists the groups in ascending key order. -/
def strLE (a b : String) : Bool := !decide (b < a)

/-- `df.groupby(dim)[metric].sum()` (source lines 134, 142, 151): one
entry per distinct key value, keys in ascending order, each paired with
the sum of the metric over its rows. -/
def group_by (rs : List Record) (key : Record → String) (metric : Record → ℚ) :
    List (String × ℚ) :=
  ((rs.map key).dedup.mergeSort strLE).map
    (fun k => (k, ((rs.filter (fun r => decide (key r = k))).map metric).sum))

/-- `.sort_values(by=metric, ascending=False)` (source lines 134, 142,
152): sort the grouped entries by their summed metric, descending. -/
def sort_desc (l : List (String × ℚ)) : List (String × ℚ) :=
  l.mergeSort (fun a b => decide (b.2 ≤ a.2))

/-- The Top-N variant: `.sort_values(ascending=False).head(n)`
(source lines 150-153). -/
def top (l : List (String × ℚ)) (n : ℕ) : List (String × ℚ) :=
  (sort_desc l).take n

/-- `region_sales` (source line 134). -/
def region_sales (rs : List Record) : List (String × ℚ) :=
  sort_desc (group_by rs Record.region Record.sales)

/-- `category_sales` (source line 142). -/
def category_sales (rs : List Record) : List (String × ℚ) :=
  sort_desc (group_by rs Record.category Record.sales)

/-- `top_products` (source lines 150-153): top 10 products by summed
profit. -/
def top_products (rs : List Record) : List (String × ℚ) :=
  top (group_by rs Record.product_name Record.profit) 10

/-- The radio choice of source lines 110-113. -/
inductive Granularity where
  | Monthly
  | Daily
deriving DecidableEq, Repr

/-- The resampling period key of a row: its order date's calendar month
index for `resample("M")`, its day number for `resample("D")`. -/
def granKey : Granularity → Record → ℕ
  | .Monthly, r => monthIndex r.order_date
  | .Daily, r => dayIndex r.order_date

/-- Sum of a metric over the rows falling in period `p`. -/
def bucketSum (rs : List Record) (key : Record → ℕ) (metric : Record → ℚ)
    (p : ℕ) : ℚ :=
  ((rs.filter (fun r => decide (key r = p))).map metric).sum

/-- pandas `set_index.resample(freq)[["Sales","Profit"]].sum()`: one bin
per period from the smallest to the largest period present in the index
(bins with no rows get sum `0`), in ascending period order; empty input
gives an empty frame. -/
def resampleBy (key : Record → ℕ) (rs : List Record) : List (ℕ × ℚ × ℚ) :=
  if rs = [] then []
  else
    (List.range' ((rs.map key).min?.getD 0)
        ((rs.map key).max?.getD 0 + 1 - (rs.map key).min?.getD 0)).map
      (fun p => (p, bucketSum rs key Record.sales p, bucketSum rs key Record.profit p))

/-- `time_data` (source lines 116-119): the resampled sales/profit series
at the chosen granularity. -/
def time_data (g : Granularity) (rs : List Record) : List (ℕ × ℚ × ℚ) :=
  resampleBy (granKey g) rs

/-- The conditions the script can stop on before rendering. An empty
segment or region selection hits the `st.warning` + `st.stop()` guard of
source lines 56-58. -/
inductive DashError where
  | incompleteCriteria
deriving DecidableEq, Repr

/-- Everything the script computes downstream of the filter for one
refresh: the filtered rows, both KPI snapshots, the deltas, the trend
series and the grouped summaries. -/
structure DashOutput where
  filtered : List Record
  overall_kpis : KPISnapshot
  filtered_kpis : KPISnapshot
  deltas : Deltas
  trend : List (ℕ × ℚ × ℚ)
  regions : List (String × ℚ)
  categories : List (String × ℚ)
  products : List (String × ℚ)
deriving DecidableEq, Repr

/-- One refresh of the script (source lines 56-153): the empty-selection
guard of lines 56-58 runs first and stops the script (`st.stop()`) before
any filtering or aggregation; otherwise every downstream result is
computed from `filtered_df`. -/
def dashboard (df : List Record) (c : Criteria) (g : Granularity) :
    Except DashError DashOutput :=
  if c.segments = [] ∨ c.regions = [] then
    .error .incompleteCriteria
  else
    let fd := filtered_df df c
    .ok
      { filtered := fd
        overall_kpis := summarize df
        filtered_kpis := summarize fd
        deltas := computeDeltas (summarize df) (summarize fd)
        trend := time_data g fd
        regions := region_sales fd
        categories := category_sales fd
        products := top_products fd }

/-- The two-row scenario of the spec's §8: sales 100 and 200, profit 20
and -10, distinct order ids, both Consumer/East, dated 2024-01-05 and
2024-02-10. -/
def demoRecords : List Record :=
  [{ order_id := "CA-2024-1001", order_date := ⟨2024, 1, 5⟩,
     ship_date := ⟨2024, 1, 9⟩, segment := "Consumer", region := "East",
     category := "Furniture", product_name := "Desk",
     sales := 100, profit := 20 },
   { order_id := "CA-2024-1002", order_date := ⟨2024, 2, 10⟩,
     ship_date := ⟨2024, 2, 14⟩, segment := "Consumer", region := "East",
     category := "Technology", product_name := "Phone",
     sales := 200, profit := -10 }]

/-- The criteria of the spec's §8 scenario: range 2024-01-01..2024-02-28,
segments {Consumer}, regions {East}. -/
def demoCriteria : Criteria :=
  { date_start := ⟨2024, 1, 1⟩, date_end := ⟨2024, 2, 28⟩,
    segments := ["Consumer"], regions := ["East"] }

/-- Two rows one calendar month apart with an empty month in between
(January and March 2024): input for the resampling gap behaviour. -/
def demoGap : List Record :=
  [{ order_id := "CA-2024-2001", order_date := ⟨2024, 1, 5⟩,
     ship_date := ⟨2024, 1, 9⟩, segment := "Consumer", region := "East",
     category := "Furniture", product_name := "Desk",
     sales := 100, profit := 20 },
   { order_id := "CA-2024-2002", order_date := ⟨2024, 3, 10⟩,
     ship_date := ⟨2024, 3, 14⟩, segment := "Consumer", region := "East",
     category := "Technology", product_name := "Phone",
     sales := 200, profit := -10 }]

end Dashboard
namespace Dashboard

/-- C1: at a zero baseline the delta computation of source lines 94-96
produces no defined value: the source divides unguarded, so NumPy float
division silently yields an undocumented `NaN`/`inf` for sales/profit and
Python integer division raises an uncaught `ZeroDivisionError` for the
order counts (modelled by `pctDelta` returning `none`). Evaluated at the
spec's scenario: baseline `total_sales = 0`, filtered `total_sales = 50`. -/
theorem zero_baseline_delta_undefined :
    sales_delta ⟨0, 0, 0, none⟩ ⟨50, 5, 1, none⟩ = none ∧
    orders_delta ⟨0, 0, 0, none⟩ ⟨50, 5, 1, none⟩ = none := by
  constructor <;> simp [sales_delta, orders_delta, pctDelta]

/-- C3: with non-empty segment and region selections, `filtered_df` keeps
a row iff its order date lies in the inclusive date range, its segment is
selected and its region is selected; the result is a sublist of the input
(original order preserved, input untouched). -/
theorem filter_keeps_iff (df : List Record) (c : Criteria)
    (_hs : c.segments ≠ []) (_hr : c.regions ≠ []) :
    (∀ r, r ∈ filtered_df df c ↔
      r ∈ df ∧ dayIndex c.date_start ≤ dayIndex r.order_date ∧
      dayIndex r.order_date ≤ dayIndex c.date_end ∧
      r.segment ∈ c.segments ∧ r.region ∈ c.regions) ∧
    (filtered_df df c).Sublist df := by
  constructor
  · intro r
    simp [filtered_df, List.mem_filter, keepRecord, and_assoc]
  · exact List.filter_sublist _

/-- Witness for C3 at the spec's §8 scenario data. -/
theorem filter_keeps_iff_witness :
    demoCriteria.segments ≠ [] ∧ demoCriteria.regions ≠ [] ∧
    ((∀ r, r ∈ filtered_df demoRecords demoCriteria ↔
       r ∈ demoRecords ∧
       dayIndex demoCriteria.date_start ≤ dayIndex r.order_date ∧
       dayIndex r.order_date ≤ dayIndex demoCriteria.date_end ∧
       r.segment ∈ demoCriteria.segments ∧ r.region ∈ demoCriteria.regions) ∧
     (filtered_df demoRecords demoCriteria).Sublist demoRecords) :=
  ⟨by decide, by decide,
   filter_keeps_iff demoRecords demoCriteria (by decide) (by decide)⟩

/-- C5: an empty segment or region selection stops the script at source
lines 56-58 (`st.stop()`): the refresh signals `incompleteCriteria` and no
filtered rows, KPIs, deltas, grouped summaries or time series are
produced. -/
theorem empty_selection_halts (df : List Record) (c : Criteria)
    (g : Granularity) (h : c.segments = [] ∨ c.regions = []) :
    dashboard df c g = .error .incompleteCriteria := by
  unfold dashboard
  rw [if_pos h]

/-- Witness for C5: criteria with no segments selected. -/
theorem empty_selection_halts_witness :
    (Criteria.segments ⟨⟨2024, 1, 1⟩, ⟨2024, 2, 28⟩, [], ["East"]⟩ = [] ∨
     Criteria.regions ⟨⟨2024, 1, 1⟩, ⟨2024, 2, 28⟩, [], ["East"]⟩ = []) ∧
    dashboard demoRecords ⟨⟨2024, 1, 1⟩, ⟨2024, 2, 28⟩, [], ["East"]⟩
      Granularity.Monthly = .error .incompleteCriteria :=
  ⟨Or.inl rfl,
   empty_selection_halts demoRecords _ Granularity.Monthly (Or.inl rfl)⟩

/-- C7: the filter is idempotent — re-filtering an already-filtered frame
with the same criteria returns it unchanged. -/
theorem filter_idempotent (df : List Record) (c : Criteria) :
    filtered_df (filtered_df df c) c = filtered_df df c := by
  unfold filtered_df
  rw [List.filter_filter]
  exact List.filter_congr (fun x _ => Bool.and_self _)

/-- C9: when the filter yields zero rows, every downstream operation still
produces a defined result: the KPI sums and the distinct-order count are
`0` with an undefined (`none`, pandas `NaN`) mean delivery time, and
grouping and resampling return empty results. -/
theorem empty_filter_result_defined (df : List Record) (c : Criteria)
    (h : filtered_df df c = []) :
    summarize (filtered_df df c) = ⟨0, 0, 0, none⟩ ∧
    (∀ key metric, group_by (filtered_df df c) key metric = []) ∧
    ∀ g, time_data g (filtered_df df c) = [] := by
  rw [h]
  refine ⟨rfl, fun key metric => ?_, fun g => rfl⟩
  simp [group_by]

/-- Witness for C9: the demo rows with a segment selection matching no
row, so the filter yields zero rows. -/
theorem empty_filter_result_defined_witness :
    filtered_df demoRecords ⟨⟨2024, 1, 1⟩, ⟨2024, 2, 28⟩, ["Corporate"], ["East"]⟩ = [] ∧
    (summarize (filtered_df demoRecords ⟨⟨2024, 1, 1⟩, ⟨2024, 2, 28⟩, ["Corporate"], ["East"]⟩) = ⟨0, 0, 0, none⟩ ∧
     (∀ key metric, group_by (filtered_df demoRecords ⟨⟨2024, 1, 1⟩, ⟨2024, 2, 28⟩, ["Corporate"], ["East"]⟩) key metric = []) ∧
     ∀ g, time_data g (filtered_df demoRecords ⟨⟨2024, 1, 1⟩, ⟨2024, 2, 28⟩, ["Corporate"], ["East"]⟩) = []) :=
  ⟨by decide, empty_filter_result_defined demoRecords _ (by decide)⟩

end Dashboard
namespace Dashboard

/-- A sum of `if x = k then c else 0` over keys not containing `x` is 0. -/
lemma sum_map_ite_zero {κ : Type} [DecidableEq κ] (t : List κ) (x : κ) (c : ℚ)
    (hx : x ∉ t) : (t.map fun k => if x = k then c else 0).sum = 0 := by
  induction t with
  | nil => simp
  | cons a t ih =>
    simp only [List.mem_cons, not_or] at hx
    simp [hx.1, ih hx.2]

/-- A sum of `if x = k then c else 0` over a duplicate-free key list
containing `x` picks out `c` exactly once. -/
lemma sum_map_ite_of_nodup {κ : Type} [DecidableEq κ] (ks : List κ) (x : κ)
    (c : ℚ) (hnd : ks.Nodup) (hx : x ∈ ks) :
    (ks.map fun k => if x = k then c else 0).sum = c := by
  induction ks with
  | nil => cases hx
  | cons a t ih =>
    rw [List.nodup_cons] at hnd
    rcases List.mem_cons.mp hx with h | h
    · subst h
      simp [sum_map_ite_zero t x c hnd.1]
    · have hxa : x ≠ a := by
        rintro rfl
        exact hnd.1 h
      simp only [List.map_cons, List.sum_cons, if_neg hxa, zero_add]
      exact ih hnd.2 h

/-- Partition lemma: summing a metric fibrewise over a duplicate-free key
list that covers all keys of the data gives the total sum. -/
lemma sum_groups {α : Type} {κ : Type} [DecidableEq κ] (l : List α)
    (key : α → κ) (f : α → ℚ) (ks : List κ) (hnd : ks.Nodup)
    (hcov : ∀ a ∈ l, key a ∈ ks) :
    (ks.map fun k => ((l.filter fun a => decide (key a = k)).map f).sum).sum
      = (l.map f).sum := by
  induction l with
  | nil => simp
  | cons a t ih =>
    have h1 : ∀ k : κ, (((a :: t).filter fun x => decide (key x = k)).map f).sum
        = (if key a = k then f a else 0)
          + ((t.filter fun x => decide (key x = k)).map f).sum := by
      intro k
      by_cases h : key a = k
      · simp [List.filter_cons, h]
      · simp [List.filter_cons, h]
    calc (ks.map fun k => (((a :: t).filter fun x => decide (key x = k)).map f).sum).sum
        = (ks.map fun k => (if key a = k then f a else 0)
            + ((t.filter fun x => decide (key x = k)).map f).sum).sum := by
          simp only [h1]
      _ = (ks.map fun k => if key a = k then f a else 0).sum
          + (ks.map fun k => ((t.filter fun x => decide (key x = k)).map f).sum).sum :=
          List.sum_map_add
      _ = f a + (t.map f).sum := by
          rw [sum_map_ite_of_nodup ks (key a) (f a) hnd (hcov a (List.mem_cons_self a t)),
            ih (fun x hx => hcov x (List.mem_cons_of_mem a hx))]
      _ = ((a :: t).map f).sum := by simp

/-- C4: `summarize` returns the sum of sales, the sum of profit, the
number of distinct order ids, and the mean delivery time; on the spec's
§8 two-row scenario it yields total_sales 300, total_profit 10,
total_orders 2. -/
theorem summarize_spec (rs : List Record) (h : rs ≠ []) :
    (summarize rs).total_sales = (rs.map Record.sales).sum ∧
    (summarize rs).total_profit = (rs.map Record.profit).sum ∧
    (summarize rs).total_orders = (rs.map Record.order_id).toFinset.card ∧
    (summarize rs).avg_delivery_time
      = some (((rs.map deliveryTime).sum : ℚ) / (rs.length : ℚ)) ∧
    (summarize demoRecords).total_sales = 300 ∧
    (summarize demoRecords).total_profit = 10 ∧
    (summarize demoRecords).total_orders = 2 := by
  refine ⟨rfl, rfl, (List.card_toFinset _).symm, ?_, ?_, ?_, by decide⟩
  · show avgDelivery rs = _
    rw [avgDelivery, if_neg h]
  · show totalSales demoRecords = 300
    norm_num [totalSales, demoRecords]
  · show totalProfit demoRecords = 10
    norm_num [totalProfit, demoRecords]

/-- Witness for C4 at the spec's §8 scenario data. -/
theorem summarize_spec_witness :
    demoRecords ≠ [] ∧
    ((summarize demoRecords).total_sales = (demoRecords.map Record.sales).sum ∧
     (summarize demoRecords).total_profit = (demoRecords.map Record.profit).sum ∧
     (summarize demoRecords).total_orders = (demoRecords.map Record.order_id).toFinset.card ∧
     (summarize demoRecords).avg_delivery_time
       = some (((demoRecords.map deliveryTime).sum : ℚ) / (demoRecords.length : ℚ)) ∧
     (summarize demoRecords).total_sales = 300 ∧
     (summarize demoRecords).total_profit = 10 ∧
     (summarize demoRecords).total_orders = 2) :=
  ⟨by decide, summarize_spec demoRecords (by decide)⟩

/-- C6: for non-empty data, the per-group sales sums of `group_by` (and
of the sorted `region_sales` built from it) add up to the ungrouped
`total_sales` of `summarize`. -/
theorem group_totals_reconcile (rs : List Record) (key : Record → String)
    (_h : rs ≠ []) :
    ((group_by rs key Record.sales).map Prod.snd).sum
      = (summarize rs).total_sales ∧
    ((region_sales rs).map Prod.snd).sum = (summarize rs).total_sales := by
  have hgen : ∀ key' : Record → String,
      ((group_by rs key' Record.sales).map Prod.snd).sum
        = (summarize rs).total_sales := by
    intro key'
    show ((group_by rs key' Record.sales).map Prod.snd).sum
      = (rs.map Record.sales).sum
    unfold group_by
    rw [List.map_map]
    have hcomp : (Prod.snd ∘ fun k =>
        (k, ((rs.filter fun r => decide (key' r = k)).map Record.sales).sum))
        = fun k => ((rs.filter fun r => decide (key' r = k)).map Record.sales).sum :=
      rfl
    rw [hcomp]
    have hperm := (List.mergeSort_perm (rs.map key').dedup strLE).map
      (fun k => ((rs.filter fun r => decide (key' r = k)).map Record.sales).sum)
    rw [hperm.sum_eq]
    exact sum_groups rs key' Record.sales (rs.map key').dedup
      (List.nodup_dedup _)
      (fun a ha => List.mem_dedup.mpr (List.mem_map_of_mem key' ha))
  refine ⟨hgen key, ?_⟩
  have hperm := (List.mergeSort_perm (group_by rs Record.region Record.sales)
    (fun a b => decide (b.2 ≤ a.2))).map Prod.snd
  calc ((region_sales rs).map Prod.snd).sum
      = ((group_by rs Record.region Record.sales).map Prod.snd).sum := hperm.sum_eq
    _ = (summarize rs).total_sales := hgen Record.region

/-- Witness for C6 at the spec's §8 scenario data, grouped by region. -/
theorem group_totals_reconcile_witness :
    demoRecords ≠ [] ∧
    (((group_by demoRecords Record.region Record.sales).map Prod.snd).sum
       = (summarize demoRecords).total_sales ∧
     ((region_sales demoRecords).map Prod.snd).sum
       = (summarize demoRecords).total_sales) :=
  ⟨by decide, group_totals_reconcile demoRecords Record.region (by decide)⟩

/-- C8: the Top-N query over a grouped summary has length
`min n (number of distinct groups)` (so all groups are returned when
fewer than `n` exist) and its metric values are sorted non-increasing. -/
theorem topn_spec (rs : List Record) (key : Record → String)
    (metric : Record → ℚ) (n : ℕ) :
    (group_by rs key metric).length = (rs.map key).dedup.length ∧
    (top (group_by rs key metric) n).length
      = min n ((rs.map key).dedup.length) ∧
    ((top (group_by rs key metric) n).map Prod.snd).Pairwise
      (fun a b => b ≤ a) := by
  have hlen : (group_by rs key metric).length = (rs.map key).dedup.length := by
    unfold group_by
    rw [List.length_map, List.length_mergeSort]
  refine ⟨hlen, ?_, ?_⟩
  · unfold top sort_desc
    rw [List.length_take, List.length_mergeSort, hlen]
  · have hsorted : (sort_desc (group_by rs key metric)).Pairwise
        (fun a b : String × ℚ => decide (b.2 ≤ a.2) = true) := by
      apply List.sorted_mergeSort
      · intro a b c hab hbc
        simp only [decide_eq_true_eq] at *
        exact le_trans hbc hab
      · intro a b
        simpa [Bool.or_eq_true, decide_eq_true_eq] using le_total b.2 a.2
    have hsorted' : (sort_desc (group_by rs key metric)).Pairwise
        (fun a b : String × ℚ => b.2 ≤ a.2) :=
      hsorted.imp (fun h => of_decide_eq_true h)
    exact List.pairwise_map.mpr
      (List.Pairwise.sublist (List.take_sublist n _) hsorted')

/-- C10: when every sales value is non-negative, the filtered view is a
sub-sequence of the dataset, its sales total never exceeds the baseline
total, and whenever the percentage sales delta of source line 94 is
defined it is non-positive. -/
theorem filtered_delta_nonpositive (df : List Record) (c : Criteria)
    (h : ∀ r ∈ df, 0 ≤ r.sales) :
    (filtered_df df c).Sublist df ∧
    totalSales (filtered_df df c) ≤ totalSales df ∧
    ∀ d, sales_delta (summarize df) (summarize (filtered_df df c)) = some d →
      d ≤ 0 := by
  have hsub : (filtered_df df c).Sublist df := List.filter_sublist _
  have hle : totalSales (filtered_df df c) ≤ totalSales df := by
    apply List.Sublist.sum_le_sum (hsub.map Record.sales)
    intro a ha
    rcases List.mem_map.mp ha with ⟨r, hr, rfl⟩
    exact h r hr
  refine ⟨hsub, hle, ?_⟩
  intro d hd
  unfold sales_delta pctDelta at hd
  by_cases h0 : (summarize df).total_sales = 0
  · rw [if_pos h0] at hd
    cases hd
  · rw [if_neg h0] at hd
    have hpos : 0 < (summarize df).total_sales := by
      have hnn : 0 ≤ (summarize df).total_sales := by
        apply List.sum_nonneg
        intro x hx
        rcases List.mem_map.mp hx with ⟨r, hr, rfl⟩
        exact h r hr
      exact lt_of_le_of_ne hnn (Ne.symm h0)
    have hnum : (summarize (filtered_df df c)).total_sales
        - (summarize df).total_sales ≤ 0 := sub_nonpos.mpr hle
    rw [← Option.some.inj hd]
    apply mul_nonpos_of_nonpos_of_nonneg
    · exact div_nonpos_of_nonpos_of_nonneg hnum hpos.le
    · norm_num

/-- Witness for C10 at the spec's §8 scenario data. -/
theorem filtered_delta_nonpositive_witness :
    (∀ r ∈ demoRecords, 0 ≤ r.sales) ∧
    ((filtered_df demoRecords demoCriteria).Sublist demoRecords ∧
     totalSales (filtered_df demoRecords demoCriteria) ≤ totalSales demoRecords ∧
     ∀ d, sales_delta (summarize demoRecords)
         (summarize (filtered_df demoRecords demoCriteria)) = some d →
       d ≤ 0) :=
  ⟨by simp [demoRecords], filtered_delta_nonpositive demoRecords demoCriteria
    (by simp [demoRecords])⟩

end Dashboard
namespace Dashboard

/-- C2 (amended): for each granularity the resampled series is strictly
ascending in period and dense — it contains exactly one entry for every
period between the smallest and the largest period occurring in the data,
and each entry carries the sales and profit sums of the rows in its
period (zero when no row falls in it). -/
theorem resample_dense_ascending (g : Granularity) (rs : List Record)
    (lo hi : ℕ) (hlo : (rs.map (granKey g)).min? = some lo)
    (hhi : (rs.map (granKey g)).max? = some hi) :
    ((time_data g rs).map Prod.fst).Pairwise (· < ·) ∧
    (∀ p, p ∈ (time_data g rs).map Prod.fst ↔ lo ≤ p ∧ p ≤ hi) ∧
    ∀ e ∈ time_data g rs,
      e.2.1 = bucketSum rs (granKey g) Record.sales e.1 ∧
      e.2.2 = bucketSum rs (granKey g) Record.profit e.1 := by
  have hne : rs ≠ [] := by
    rintro rfl
    simp [List.min?] at hlo
  obtain ⟨hlomem, hlole⟩ := List.min?_eq_some_iff'.mp hlo
  obtain ⟨hhimem, hhile⟩ := List.max?_eq_some_iff'.mp hhi
  have hlohi : lo ≤ hi := hhile lo hlomem
  have hkeys : (time_data g rs).map Prod.fst = List.range' lo (hi + 1 - lo) := by
    unfold time_data resampleBy
    rw [if_neg hne, hlo, hhi, Option.getD_some, Option.getD_some, List.map_map]
    have hcomp : (Prod.fst ∘ fun p =>
        (p, bucketSum rs (granKey g) Record.sales p,
          bucketSum rs (granKey g) Record.profit p)) = id := rfl
    rw [hcomp, List.map_id]
  refine ⟨?_, ?_, ?_⟩
  · rw [hkeys]
    exact List.pairwise_lt_range' lo (hi + 1 - lo)
  · intro p
    rw [hkeys, List.mem_range']
    constructor
    · rintro ⟨i, hi', rfl⟩
      omega
    · intro hp
      exact ⟨p - lo, by omega, by omega⟩
  · intro e he
    unfold time_data resampleBy at he
    rw [if_neg hne] at he
    rcases List.mem_map.mp he with ⟨p, _, rfl⟩
    exact ⟨rfl, rfl⟩

/-- Witness for C2's amended statement: monthly resampling of the
January/March pair. -/
theorem resample_dense_ascending_witness :
    (demoGap.map (granKey Granularity.Monthly)).min? = some 24288 ∧
    (demoGap.map (granKey Granularity.Monthly)).max? = some 24290 ∧
    (((time_data Granularity.Monthly demoGap).map Prod.fst).Pairwise (· < ·) ∧
     (∀ p, p ∈ (time_data Granularity.Monthly demoGap).map Prod.fst ↔
        24288 ≤ p ∧ p ≤ 24290) ∧
     ∀ e ∈ time_data Granularity.Monthly demoGap,
       e.2.1 = bucketSum demoGap (granKey Granularity.Monthly) Record.sales e.1 ∧
       e.2.2 = bucketSum demoGap (granKey Granularity.Monthly) Record.profit e.1) :=
  ⟨by decide, by decide,
   resample_dense_ascending Granularity.Monthly demoGap 24288 24290
     (by decide) (by decide)⟩

/-- C2 (counterexample to the claim as stated): monthly resampling of two
rows dated 2024-01-05 and 2024-03-10 emits a February bucket to which no
record contributes — pandas `resample(...).sum()` fills the empty bin
with zero sums instead of omitting it. -/
theorem resample_emits_empty_bucket :
    ∃ e ∈ time_data Granularity.Monthly demoGap,
      ∀ r ∈ demoGap, granKey Granularity.Monthly r ≠ e.1 := by
  have h : time_data Granularity.Monthly demoGap =
      [(24288, (100 : ℚ), (20 : ℚ)), (24289, 0, 0), (24290, 200, -10)] := by
    unfold time_data resampleBy
    rw [if_neg (by decide : ¬(demoGap = []))]
    norm_num [demoGap, granKey, monthIndex, bucketSum,
      List.min?, List.max?, List.range', List.filter]
  refine ⟨(24289, 0, 0), ?_, ?_⟩
  · rw [h]
    simp
  · decide

end Dashboard
